import Mathlib

/-!
Verification of the DNS reconciliation engine in main.go of
stevennic22/docker-go-ns1-dynamic-dns.

The engine decides, per subdomain, whether to create, update, or leave
alone an A record at the NS1 DNS provider, comparing the host's current
public IP and the desired country allow-list against the record state.

The embedding below translates the decision logic of main.go:
  - sliceFromInterface (main.go:252-266),
  - fullSubdomain      (main.go:269-276),
  - checkIP            (main.go:173-196),
  - processAnswer      (main.go:309-341),
  - the decision and effect structure of processSubdomain (main.go:344-406),
  - the record payloads written by createRecord (main.go:214-249) and
    updateRecord (main.go:199-211).

Go dynamic values (interface\x7b\x7d) are modelled by small inductive types
covering the shapes the code distinguishes.  Network, logging and client
plumbing are out of scope (external collaborators per the spec); the
model keeps the data each function actually branches on.  String fields
used only for API addressing and log lines (zone, domain name, record
type "A") do not influence any branch of the decision logic and are
omitted from the record model.
-/

namespace NS1DDNS

/-- One element of a Go `[]interface\x7b\x7d` as seen by sliceFromInterface:
either a string or some non-string value. -/
inductive GoItem where
  | str (s : String)
  | nonString
  deriving DecidableEq, Repr

/-- A Go `interface\x7b\x7d` value in the `Meta.Country` position: nil (field
unset), a list (`[]interface\x7b\x7d`), or any other non-list value. -/
inductive GoVal where
  | goNil
  | goList (xs : List GoItem)
  | goOther
  deriving DecidableEq, Repr

/-- Answer metadata (ns1 `data.Meta` as used by the code): the `Up` flag is
a Go `interface\x7b\x7d` holding a bool or nil (modelled `Option Bool`; the code
only ever compares it against the bool `true`), and `Country` is a Go
`interface\x7b\x7d`. -/
structure Meta where
  up : Option Bool
  country : GoVal
  deriving DecidableEq, Repr

/-- A DNS answer: rdata strings plus optional metadata (`Meta` is a pointer
in Go; `none` models a nil pointer). -/
structure Answer where
  rdata : List String
  meta : Option Meta
  deriving DecidableEq, Repr

/-- A DNS record: its list of answers.  The Go record also carries zone /
domain / type strings, used only to address the API and in log lines,
never branched on by the reconciliation logic. -/
structure Record where
  answers : List Answer
  deriving DecidableEq, Repr

/-- Go comparison `answer.Meta.Up != true` (main.go:332) negated: an
interface value equals `true` exactly when it holds the bool `true`. -/
def upIsTrue : Option Bool → Bool
  | some true => true
  | _ => false

/-- Helper for sliceFromInterface: convert the elements of a Go
`[]interface\x7b\x7d`, failing at the first non-string element
(main.go:255-261). -/
def sliceFromInterfaceList : List GoItem → Except String (List String)
  | [] => .ok []
  | item :: rest =>
    match item with
    | .str s => (sliceFromInterfaceList rest).map (fun tail => s :: tail)
    | .nonString => .error "element is not a string"

/-- sliceFromInterface (main.go:252-266): succeeds only on a list whose
elements are all strings; a nil or non-list value yields the
"dunno how we got here" error.  On error Go returns the empty slice
together with the error; callers that keep the slice see `[]`. -/
def sliceFromInterface : GoVal → Except String (List String)
  | .goList xs => sliceFromInterfaceList xs
  | _ => .error "dunno how we got here"

/-- fullSubdomain (main.go:269-276): the apex label "@" maps to the bare
core domain, any other label is prepended with a dot. -/
def fullSubdomain (coreDomain subdomain : String) : String :=
  if subdomain = "@" then coreDomain else subdomain ++ "." ++ coreDomain

/-- checkIP (main.go:173-196): true iff the record has at least one answer,
its first answer has at least one rdata entry, and that entry equals the
current IP.  The Go function returns `(bool, error)` with the error
literally always nil, so it is modelled as `Bool`. -/
def checkIP (myIP : String) (record : Record) : Bool :=
  match record.answers with
  | [] => false
  | a :: _ =>
    match a.rdata with
    | [] => false
    | remoteIP :: _ => myIP == remoteIP

/-- processAnswer (main.go:309-341), the Metadata Differ.  Returns
`(shouldUpdate, countriesToUse)`.  Go initialises both results to zero
values `(false, nil)` and runs three non-exclusive `if` blocks in order:
conversion failure, country-list inequality (`slices.Equal`, element-wise),
and `Up != true`; each assigns both variables, so the LAST matching block
decides `countriesToUse`.  The sequential mutation is threaded as
`st1`, `st2`, `st3`. -/
def processAnswer (answer : Answer) (countries : List String) :
    Bool × List String :=
  match answer.meta with
  | none => (true, countries)
  | some m =>
    let conv := sliceFromInterface m.country
    let countryMeta : List String :=
      match conv with
      | .ok xs => xs
      | .error _ => []
    let st1 : Bool × List String :=
      match conv with
      | .error _ => (true, countries)
      | .ok _ => (false, [])
    let st2 : Bool × List String :=
      if ¬ (countryMeta = countries) then (true, countries) else st1
    let st3 : Bool × List String :=
      if ¬ (upIsTrue m.up = true) then (true, countryMeta) else st2
    st3

/-- Result of the provider record lookup `Records.Get` (main.go:346).  The
Go code observes only `recordCheckErr != nil`, so `notFound` and
`transportError` are indistinguishable to it; the model keeps both
constructors to state claims about the distinction. -/
inductive LookupResult where
  | found (record : Record)
  | notFound
  | transportError
  deriving DecidableEq, Repr

/-- The three-way reconciliation decision of processSubdomain: no-op,
create a fresh record, or update with a freshly built answer
(rdata, up, countries as placed into the `ns1model.Answer` literal at
main.go:379-385). -/
inductive Decision where
  | noOp
  | create (ip : String) (countries : List String)
  | update (rdata : List String) (up : Bool) (countries : List String)
  deriving DecidableEq, Repr

/-- Decision logic of processSubdomain (main.go:344-404).  Any lookup error
takes the create branch ("Assuming record doesn't exist", main.go:349).
Otherwise checkIP runs (its error is always nil, so the early return at
main.go:364-367 is dead), then `record.Answers[0]` is indexed WITHOUT a
length guard (main.go:373): on a record with zero answers Go panics with
an index-out-of-range; `none` models that panic.  An update decision is
made when the IP mismatches or the differ demands it. -/
def reconcileSubdomain (lookup : LookupResult) (currentIP : String)
    (countries : List String) : Option Decision :=
  match lookup with
  | .notFound => some (.create currentIP countries)
  | .transportError => some (.create currentIP countries)
  | .found record =>
    let ipMatches := checkIP currentIP record
    match record.answers with
    | [] => none
    | firstAnswer :: _ =>
      let res := processAnswer firstAnswer countries
      if !ipMatches || res.1 then
        some (.update [currentIP] true res.2)
      else
        some .noOp

/-- The record written by createRecord (main.go:214-249) as later read back
from the provider: one answer, rdata `[newIP]`, `Up: true`, and `Country`
set to the allowed list only when it is non-empty (main.go:218-227) —
an unset `Country` reads back as a nil interface. -/
def createdRecordState (newIP : String) (allowedCountries : List String) :
    Record :=
  { answers := [ { rdata := [newIP],
                   meta := some
                     { up := some true,
                       country :=
                         if allowedCountries.length > 0 then
                           .goList (allowedCountries.map .str)
                         else .goNil } } ] }

/-- The record state each decision writes at the provider, read back:
createRecord sets `record.Answers = [answer]` (main.go:240) and
updateRecord sets `record.Answers = [answer]` (main.go:200-202); a no-op
writes nothing. -/
def writtenRecord : Decision → Option Record
  | .noOp => none
  | .create ip countries => some (createdRecordState ip countries)
  | .update rdata up countries =>
      some { answers := [ { rdata := rdata,
                            meta := some
                              { up := some up,
                                country := .goList (countries.map .str) } } ] }

/-- A mutating provider call: `Records.Create` (main.go:242) or
`Records.Update` (main.go:204), with the answer payload handed to it. -/
inductive Mutation where
  | createCall (ip : String) (countries : List String)
  | updateCall (rdata : List String) (up : Bool) (countries : List String)
  deriving DecidableEq, Repr

/-- Reported outcome of executing one decision, distinguishing real
applications from the dry-run "TEST MODE: Would ..." log lines
(main.go:357, 401). -/
inductive Outcome where
  | created
  | wouldCreate
  | updated
  | wouldUpdate
  | noAction
  deriving DecidableEq, Repr

/-- Effect part of processSubdomain (main.go:349-358 and 389-403): the list
of mutating provider calls issued and the reported outcome, as a function
of the decision and the `test` (dry-run) flag.  The real update path first
re-fills an empty rdata with the current IP (main.go:392-394) before
calling updateRecord. -/
def executeDecision (decision : Decision) (currentIP : String)
    (test : Bool) : List Mutation × Outcome :=
  match decision with
  | .noOp => ([], .noAction)
  | .create ip countries =>
    if !test then ([.createCall ip countries], .created)
    else ([], .wouldCreate)
  | .update rdata up countries =>
    if !test then
      let rdata2 := if rdata.length = 0 then [currentIP] else rdata
      ([.updateCall rdata2 up countries], .updated)
    else ([], .wouldUpdate)

/-- Converting a list of genuine strings always succeeds and returns the
same strings. -/
theorem sliceFromInterfaceList_map_str (xs : List String) :
    sliceFromInterfaceList (xs.map .str) = .ok xs := by
  induction xs with
  | nil => rfl
  | cons x rest ih => simp [sliceFromInterfaceList, ih, Except.map]

/-- sliceFromInterface on a well-formed string list is the identity. -/
theorem sliceFromInterface_strs (xs : List String) :
    sliceFromInterface (.goList (xs.map .str)) = .ok xs := by
  simp [sliceFromInterface, sliceFromInterfaceList_map_str]

/-- C1: the claim states that a record with zero answers does not crash the
reconciliation and proceeds to a well-formed Update decision.  The code
instead panics: checkIP defensively returns a mismatch for zero answers
(main.go:175-178), but processSubdomain then indexes `record.Answers[0]`
without a guard (main.go:373), an index-out-of-range panic.  This theorem
evaluates the embedded decision logic at the failing input: the result is
`none` (the panic marker), not an Update. -/
theorem reconcile_zero_answers_crashes :
    reconcileSubdomain (.found { answers := [] }) "203.0.113.5" ["US", "CA"]
      = none := rfl

/-- C9: for every answer whose metadata is entirely absent, the Metadata
Differ returns `needsUpdate = true` and effective countries equal to the
desired list (main.go:312-315). -/
theorem meta_absent_forces_update (rdata countries : List String) :
    processAnswer { rdata := rdata, meta := none } countries
      = (true, countries) := rfl

/-- C10: the fully-qualified name is the bare core domain for the apex
label "@", and otherwise label ++ "." ++ core (main.go:269-276). -/
theorem fullSubdomain_apex_and_label (core sub : String) (h : sub ≠ "@") :
    fullSubdomain core "@" = core ∧
    fullSubdomain core sub = sub ++ "." ++ core := by
  refine ⟨by simp [fullSubdomain], by simp [fullSubdomain, h]⟩

/-- Witness for C10 at core "example.com", label "home". -/
theorem fullSubdomain_apex_and_label_witness :
    fullSubdomain "example.com" "@" = "example.com" ∧
    fullSubdomain "example.com" "home" = "home" ++ "." ++ "example.com" :=
  fullSubdomain_apex_and_label "example.com" "home" (by decide)

/-- C2 counterexample: stored countries ["US","CA"] and desired
["CA","US"] are equal as unordered sets, yet the Differ (Go
`slices.Equal`, element-wise) reports `needsUpdate = true` and the
Reconciler returns an Update rather than NoOp, even though the IP matches
and `up = true`.  This refutes the claimed permutation invariance. -/
theorem country_permutation_triggers_update :
    (processAnswer
        { rdata := ["203.0.113.5"],
          meta := some { up := some true,
                         country := .goList [.str "US", .str "CA"] } }
        ["CA", "US"]).1 = true ∧
    reconcileSubdomain
      (.found { answers :=
        [ { rdata := ["203.0.113.5"],
            meta := some { up := some true,
                           country := .goList [.str "US", .str "CA"] } } ] })
      "203.0.113.5" ["CA", "US"] ≠ some .noOp := by
  constructor
  · rfl
  · decide

/-- C2 amended: the country comparison is order-SENSITIVE (element-wise
list equality, main.go:325).  For an answer with a well-formed stored
country list, `up = true` and a matching IP, the Reconciler returns NoOp
exactly when the stored and desired lists are equal as sequences; any
other list (including a nontrivial permutation) yields an Update. -/
theorem noop_iff_country_lists_sequence_equal (ip : String)
    (stored desired : List String) :
    reconcileSubdomain
      (.found { answers :=
        [ { rdata := [ip],
            meta := some { up := some true,
                           country := .goList (stored.map .str) } } ] })
      ip desired = some .noOp ↔ stored = desired := by
  by_cases h : stored = desired
  · subst h
    simp [reconcileSubdomain, checkIP, processAnswer, sliceFromInterface_strs,
      upIsTrue]
  · simp [reconcileSubdomain, checkIP, processAnswer, sliceFromInterface_strs,
      upIsTrue, h]

/-- C3: the claim states that malformed country metadata always yields
`needsUpdate = true` with effective countries equal to the DESIRED list,
regardless of the `up` flag.  When `up != true`, the Up branch
(main.go:332-337) runs last and overwrites `countriesToUse` with
`countryMeta`, which after a failed conversion is the empty slice — so
the result is `(true, [])`, not the desired list the code's own
"Using default list" log line announces. -/
theorem malformed_country_down_empty_countries :
    processAnswer
      { rdata := ["203.0.113.5"],
        meta := some { up := some false,
                       country := .goList [.str "US", .nonString] } }
      ["US", "CA"] = (true, []) := rfl

/-- C4: for every answer with metadata present, a well-formed stored
country list and `up != true`, the Reconciler returns an Update whose
countries are the EXISTING stored list, not the desired default — the Up
branch runs last and takes `countriesToUse` from the record
(main.go:332-337). -/
theorem update_preserves_existing_countries_when_down
    (ip : String) (rd : List String) (rest : List Answer)
    (stored desired : List String) (u : Option Bool)
    (h : upIsTrue u = false) :
    reconcileSubdomain
      (.found { answers :=
        { rdata := rd,
          meta := some { up := u, country := .goList (stored.map .str) } }
        :: rest })
      ip desired = some (.update [ip] true stored) := by
  simp [reconcileSubdomain, processAnswer, sliceFromInterface_strs, h]

/-- Witness for C4: a stale-IP record with `up = false` and stored
countries ["GB"] gets an Update carrying ["GB"], not the desired
["US","CA"]. -/
theorem update_preserves_existing_countries_witness :
    reconcileSubdomain
      (.found { answers :=
        [ { rdata := ["198.51.100.1"],
            meta := some { up := some false,
                           country := .goList [.str "GB"] } } ] })
      "203.0.113.9" ["US", "CA"]
      = some (.update ["203.0.113.9"] true ["GB"]) :=
  update_preserves_existing_countries_when_down "203.0.113.9"
    ["198.51.100.1"] [] ["GB"] ["US", "CA"] (some false) rfl

/-- C5 counterexample: with an EMPTY desired country list, createRecord
writes no Country metadata at all (main.go:218-227), so re-reconciling the
created state yields an Update (the nil Country fails conversion and
forces `shouldUpdate`), not the claimed NoOp. -/
theorem create_empty_countries_not_idempotent :
    reconcileSubdomain (.found (createdRecordState "203.0.113.5" []))
      "203.0.113.5" [] = some (.update ["203.0.113.5"] true []) ∧
    reconcileSubdomain (.found (createdRecordState "203.0.113.5" []))
      "203.0.113.5" [] ≠ some .noOp := by
  constructor
  · rfl
  · decide

/-- C5 amended: idempotence holds for every NONEMPTY desired country list
(the orchestration loop guarantees nonemptiness by defaulting to
["US","CA"], main.go:419-421): reconciling the state written by a Create
decision again, with the same IP and desired countries, yields NoOp. -/
theorem create_then_reconcile_noop (ip : String) (countries : List String)
    (h : countries ≠ []) :
    reconcileSubdomain (.found (createdRecordState ip countries)) ip countries
      = some .noOp := by
  have hlen : countries.length > 0 := List.length_pos.mpr h
  simp [reconcileSubdomain, createdRecordState, checkIP, processAnswer,
    sliceFromInterface_strs, upIsTrue, hlen]

/-- Witness for C5 amended at IP 203.0.113.5 and countries ["US","CA"]. -/
theorem create_then_reconcile_noop_witness :
    reconcileSubdomain
      (.found (createdRecordState "203.0.113.5" ["US", "CA"]))
      "203.0.113.5" ["US", "CA"] = some .noOp :=
  create_then_reconcile_noop "203.0.113.5" ["US", "CA"] (by decide)

/-- C6 counterexample: the claim states that a transport failure of the
lookup is distinguished from not-found, propagates as an error, and leads
to NO create attempt.  The code checks only `recordCheckErr != nil`
(main.go:348) — "Assuming record doesn't exist" — so a transport failure
also takes the create branch. -/
theorem transport_error_still_creates :
    reconcileSubdomain .transportError "203.0.113.9" ["US", "CA"]
      = some (.create "203.0.113.9" ["US", "CA"]) := rfl

/-- C6 amended: a Create is returned exactly when the provider lookup
returns ANY error — not-found and transport failures are conflated and
both lead to a create attempt; a successful lookup never yields a
Create. -/
theorem create_iff_lookup_error (lookup : LookupResult) (ip : String)
    (countries : List String) :
    reconcileSubdomain lookup ip countries = some (.create ip countries) ↔
      (lookup = .notFound ∨ lookup = .transportError) := by
  cases lookup with
  | notFound => simp [reconcileSubdomain]
  | transportError => simp [reconcileSubdomain]
  | found record =>
    obtain ⟨answers⟩ := record
    cases answers with
    | nil => simp [reconcileSubdomain]
    | cons a rest =>
      simp only [reconcileSubdomain]
      constructor
      · intro hcontra
        split at hcontra <;> simp at hcontra
      · intro hcontra
        rcases hcontra with hcontra | hcontra <;> exact absurd hcontra (by simp)

/-- C7: the dry-run law.  For every non-NoOp decision, executing with the
test flag true issues zero mutating provider calls, executing with the
flag false issues exactly one, and the two reported outcomes are distinct
("would create"/"would update" vs "created"/"updated",
main.go:349-358, 389-403). -/
theorem dry_run_zero_mutations_real_run_one (d : Decision) (ip : String)
    (h : d ≠ .noOp) :
    (executeDecision d ip true).1 = [] ∧
    (executeDecision d ip false).1.length = 1 ∧
    (executeDecision d ip true).2 ≠ (executeDecision d ip false).2 := by
  cases d with
  | noOp => exact absurd rfl h
  | create ip2 cs => simp [executeDecision]
  | update rd up cs => simp [executeDecision]

/-- Witness for C7 at a concrete Create decision. -/
theorem dry_run_zero_mutations_witness :
    (executeDecision (.create "203.0.113.5" ["US", "CA"]) "203.0.113.5"
        true).1 = [] ∧
    (executeDecision (.create "203.0.113.5" ["US", "CA"]) "203.0.113.5"
        false).1.length = 1 ∧
    (executeDecision (.create "203.0.113.5" ["US", "CA"]) "203.0.113.5"
        true).2 ≠
      (executeDecision (.create "203.0.113.5" ["US", "CA"]) "203.0.113.5"
        false).2 :=
  dry_run_zero_mutations_real_run_one (.create "203.0.113.5" ["US", "CA"])
    "203.0.113.5" (by decide)

/-- C8: every record a Create or Update decision writes is fully
populated: exactly one answer, rdata forced to the single-element list
holding the current IP (even when only metadata triggered the update),
and metadata with `up = true` (createRecord main.go:229-240, the update
answer literal main.go:379-385 and updateRecord main.go:200-202). -/
theorem written_record_fully_populated (lookup : LookupResult) (ip : String)
    (countries : List String) (d : Decision) (r : Record)
    (h1 : reconcileSubdomain lookup ip countries = some d)
    (h2 : writtenRecord d = some r) :
    ∃ a, r.answers = [a] ∧ a.rdata = [ip] ∧
      ∃ m, a.meta = some m ∧ m.up = some true := by
  cases lookup with
  | notFound =>
    obtain rfl : Decision.create ip countries = d := Option.some.inj h1
    obtain rfl := Option.some.inj h2
    exact ⟨_, rfl, rfl, _, rfl, rfl⟩
  | transportError =>
    obtain rfl : Decision.create ip countries = d := Option.some.inj h1
    obtain rfl := Option.some.inj h2
    exact ⟨_, rfl, rfl, _, rfl, rfl⟩
  | found record =>
    obtain ⟨answers⟩ := record
    cases answers with
    | nil => exact absurd h1 (by simp [reconcileSubdomain])
    | cons a rest =>
      simp only [reconcileSubdomain] at h1
      split at h1
      · obtain rfl := Option.some.inj h1
        obtain rfl := Option.some.inj h2
        exact ⟨_, rfl, rfl, _, rfl, rfl⟩
      · obtain rfl := Option.some.inj h1
        exact absurd h2 (by simp [writtenRecord])

/-- Witness for C8: a not-found lookup yields a Create whose written
record is the created state, which has one answer with the current IP and
an up-true metadata. -/
theorem written_record_fully_populated_witness :
    ∃ a, (createdRecordState "203.0.113.5" ["US", "CA"]).answers = [a] ∧
      a.rdata = ["203.0.113.5"] ∧
      ∃ m, a.meta = some m ∧ m.up = some true :=
  written_record_fully_populated .notFound "203.0.113.5" ["US", "CA"]
    (.create "203.0.113.5" ["US", "CA"])
    (createdRecordState "203.0.113.5" ["US", "CA"]) rfl rfl

end NS1DDNS
